import Mathlib

set_option autoImplicit false

/-! Verification of the linkedin-mcp-server core: the token store
(`src/database.py`), the service registry (`src/services/registry.py`),
the LinkedIn service dispatch and its operations
(`src/services/linkedin_service.py`), and the `LinkedInAPI` helper
(`src/linkedin_api.py`).

Time (`datetime.utcnow()`) is modelled as an integer passed explicitly to
every operation that reads the clock.  The SQLite table is modelled as a
list of rows; raised Python exceptions are modelled as `Except.error`
carrying the message, and outbound HTTP calls as an oracle function,
with the calls actually issued returned in a log. -/

/-- One row of the `linkedin_tokens` table (`src/database.py`,
class `LinkedInToken`). -/
structure LinkedInToken where
  user_id : String
  access_token : String
  refresh_token : Option String
  token_type : String
  expires_at : Option Int
  scope : Option String
  email : Option String
  created_at : Int
  updated_at : Int
deriving DecidableEq

/-- The `token_data` dict passed to `store_token`, restricted to the keys the
code reads; a field is `none` when the key is absent from the dict. -/
structure TokenData where
  access_token : Option String
  refresh_token : Option String
  token_type : Option String
  expires_in : Option Int
  scope : Option String
deriving DecidableEq

/-- Python truthiness of an optional string: `None` and `""` are falsy. -/
def pyTruthy : Option String → Bool
  | none => false
  | some s => !s.isEmpty

/-- Python rendering of an optional string inside an f-string:
`None` prints as `"None"`. -/
def pyStr : Option String → String
  | none => "None"
  | some s => s

/-- `src/database.py` `get_token`: select the row whose `user_id` matches
(`scalar_one_or_none`; the primary key keeps at most one such row). -/
def get_token (db : List LinkedInToken) (user_id : String) : Option LinkedInToken :=
  db.find? (fun t => t.user_id == user_id)

/-- The effect of `store_token`'s UPDATE statement on one row: rows whose
`user_id` matches receive the new column values, other rows are unchanged. -/
def updRow (user_id : String) (tok : String) (token_data : TokenData)
    (email : Option String) (expires_at : Option Int) (now : Int)
    (t : LinkedInToken) : LinkedInToken :=
  if t.user_id == user_id then
    { t with
        access_token := tok
        refresh_token := token_data.refresh_token
        token_type := token_data.token_type.getD "Bearer"
        expires_at := expires_at
        scope := token_data.scope
        email := email
        updated_at := now }
  else t

/-- `src/database.py` `store_token`: compute `expires_at` from `expires_in`
when present, then insert-or-update by `user_id`.  `token_data["access_token"]`
raises `KeyError` when the key is absent, modelled as `Except.error`; the
update path re-selects the updated row (`scalar_one`). -/
def store_token (db : List LinkedInToken) (user_id : String) (token_data : TokenData)
    (email : Option String) (now : Int) :
    Except String (List LinkedInToken × LinkedInToken) :=
  match token_data.access_token with
  | none => Except.error "KeyError: access_token"
  | some tok =>
    let expires_at : Option Int := token_data.expires_in.map (fun n => now + n)
    match get_token db user_id with
    | some _ =>
      let db2 := db.map (updRow user_id tok token_data email expires_at now)
      match get_token db2 user_id with
      | some t => Except.ok (db2, t)
      | none => Except.error "NoResultFound"
    | none =>
      let t : LinkedInToken :=
        { user_id := user_id
          access_token := tok
          refresh_token := token_data.refresh_token
          token_type := token_data.token_type.getD "Bearer"
          expires_at := expires_at
          scope := token_data.scope
          email := email
          created_at := now
          updated_at := now }
      Except.ok (db ++ [t], t)

/-- `src/database.py` `get_valid_token`: the stored token, unless its
`expires_at` is set and `expires_at <= utcnow()`. -/
def get_valid_token (db : List LinkedInToken) (user_id : String) (now : Int) :
    Option LinkedInToken :=
  match get_token db user_id with
  | none => none
  | some token =>
    match token.expires_at with
    | some e => if e ≤ now then none else some token
    | none => some token

/-- `src/database.py` `delete_token`: SQL `DELETE WHERE user_id = ...`;
returns `rowcount > 0`. -/
def delete_token (db : List LinkedInToken) (user_id : String) :
    List LinkedInToken × Bool :=
  let rowcount := db.countP (fun t => t.user_id == user_id)
  (db.filter (fun t => !(t.user_id == user_id)), decide (rowcount > 0))

/-- The SQL predicate `expires_at <= now` of `cleanup_expired_tokens`: a row
with `expires_at` NULL never satisfies it. -/
def expiredBy (now : Int) (t : LinkedInToken) : Bool :=
  match t.expires_at with
  | some e => e ≤ now
  | none => false

/-- `src/database.py` `cleanup_expired_tokens`: SQL
`DELETE WHERE expires_at <= now`; returns the remaining rows and `rowcount`. -/
def cleanup_expired_tokens (db : List LinkedInToken) (now : Int) :
    List LinkedInToken × Nat :=
  (db.filter (fun t => !(expiredBy now t)), db.countP (expiredBy now))

/-- The number of rows for a given `user_id`. -/
def countUser (db : List LinkedInToken) (user_id : String) : Nat :=
  db.countP (fun t => t.user_id == user_id)

/-! ## Service contract and registry (`src/services/base.py`, `registry.py`) -/

/-- The `parameters` dict of a `ServiceRequest`, restricted to the keys the
modelled operations read; a field is `none` when the key is absent. -/
structure Params where
  access_token : Option String
  user_id : Option String
  content : Option String
  selectors : Option (List String)
deriving DecidableEq

/-- `src/services/base.py` `ServiceRequest`. -/
structure ServiceRequest where
  service_name : String
  method : String
  parameters : Params
deriving DecidableEq

/-- `src/services/base.py` `ServiceResponse`; `data` stays abstract in the
type parameter. -/
structure ServiceResponse (α : Type) where
  success : Bool
  data : Option α
  error : Option String
deriving DecidableEq

/-- A service's async `handle_request` as the registry sees it; a raised
exception is `Except.error` with `str(e)`. -/
def Handler (α : Type) : Type := ServiceRequest → Except String (ServiceResponse α)

/-- `src/services/registry.py` `ServiceRegistry.handle_request`: look up the
service by name (`self._services.get`), return the not-found response when
absent, otherwise call its `handle_request` inside `try/except`. -/
def registry_handle_request {α : Type} (services : String → Option (Handler α))
    (request : ServiceRequest) : ServiceResponse α :=
  match services request.service_name with
  | none =>
    { success := false, data := none,
      error := some ("Service '" ++ request.service_name ++ "' not found") }
  | some handle =>
    match handle request with
    | Except.ok resp => resp
    | Except.error e =>
      { success := false, data := none,
        error := some ("Error in service '" ++ request.service_name ++ "': " ++ e) }

/-! ## LinkedIn service dispatch (`src/services/linkedin_service.py`) -/

/-- The twelve operations `LinkedInService.handle_request` dispatches to,
kept abstract (each may raise). -/
structure LinkedInOps (α : Type) where
  get_auth_url : Params → Except String (ServiceResponse α)
  exchange_code_for_token : Params → Except String (ServiceResponse α)
  get_profile : Params → Except String (ServiceResponse α)
  get_user_info : Params → Except String (ServiceResponse α)
  get_connections : Params → Except String (ServiceResponse α)
  get_posts : Params → Except String (ServiceResponse α)
  create_post : Params → Except String (ServiceResponse α)
  start_auth_flow : Params → Except String (ServiceResponse α)
  get_certifications : Params → Except String (ServiceResponse α)
  get_courses : Params → Except String (ServiceResponse α)
  get_experience : Params → Except String (ServiceResponse α)
  search_jobs : Params → Except String (ServiceResponse α)

/-- The `if method == ... elif ...` chain inside the `try` block of
`LinkedInService.handle_request`. -/
def linkedinDispatch {α : Type} (ops : LinkedInOps α) (request : ServiceRequest) :
    Except String (ServiceResponse α) :=
  let method := request.method
  let params := request.parameters
  if method == "get_auth_url" then ops.get_auth_url params
  else if method == "exchange_code_for_token" then ops.exchange_code_for_token params
  else if method == "get_profile" then ops.get_profile params
  else if method == "get_user_info" then ops.get_user_info params
  else if method == "get_connections" then ops.get_connections params
  else if method == "get_posts" then ops.get_posts params
  else if method == "create_post" then ops.create_post params
  else if method == "start_auth_flow" then ops.start_auth_flow params
  else if method == "get_certifications" then ops.get_certifications params
  else if method == "get_courses" then ops.get_courses params
  else if method == "get_experience" then ops.get_experience params
  else if method == "search_jobs" then ops.search_jobs params
  else Except.ok
    { success := false, data := none, error := some ("Unknown method: " ++ method) }

/-- `LinkedInService.handle_request`: the dispatch chain wrapped in the
catch-all `except Exception`. -/
def linkedin_handle_request {α : Type} (ops : LinkedInOps α)
    (request : ServiceRequest) : ServiceResponse α :=
  match linkedinDispatch ops request with
  | Except.ok resp => resp
  | Except.error e =>
    { success := false, data := none,
      error := some ("LinkedIn API error: " ++ e) }

/-! ## Outbound HTTP calls as an oracle with a log -/

/-- One call through `_make_authenticated_request` / `requests`: the bearer
credential, the endpoint, the HTTP method, and for the `ugcPosts` POST the
author urn and commentary text of the body. -/
structure Call where
  token : String
  endpoint : String
  httpMethod : String
  body_author : Option String
  body_text : Option String
deriving DecidableEq

/-- Python `str.capitalize()` (ASCII): first character upper-cased, the rest
lower-cased. -/
def pyCapitalize (s : String) : String :=
  (s.take 1).toUpper ++ (s.drop 1).toLower

/-- The selector camel-casing of `_get_profile`: `'first-name'` becomes
`'firstName'`. -/
def camelize (s : String) : String :=
  if s.contains '-' then
    match s.splitOn "-" with
    | [] => ""
    | p :: ps => p ++ String.join (ps.map pyCapitalize)
  else s

/-- The default selector list of `_get_profile`. -/
def default_selectors : List String :=
  ["id", "firstName", "lastName",
   "profilePicture(displayImage~:elements*(identifiers*))",
   "vanityName", "headline", "summary", "positions", "educations",
   "certifications", "courses", "skills", "emailAddress"]

/-- The body of `_get_profile` after the credential is resolved: build the
projection string, issue the authenticated GET, wrap success and failure. -/
def get_profile_go {α : Type} (remote : Call → Except String α)
    (access_token : String) (selectors : Option (List String)) :
    ServiceResponse α × List Call :=
  let projection_string :=
    match selectors with
    | some sels =>
      if sels.isEmpty then "(" ++ String.intercalate "," default_selectors ++ ")"
      else "(" ++ String.intercalate "," (sels.map camelize) ++ ")"
    | none => "(" ++ String.intercalate "," default_selectors ++ ")"
  let c : Call :=
    { token := access_token, endpoint := "me?projection=" ++ projection_string,
      httpMethod := "GET", body_author := none, body_text := none }
  match remote c with
  | Except.ok d => ({ success := true, data := some d, error := none }, [c])
  | Except.error e =>
    ({ success := false, data := none,
       error := some ("Profile fetch failed: " ++ e) }, [c])

/-- `LinkedInService._get_profile`: inline token when truthy, else the stored
valid token, else the unauthenticated failure; then the remote read. -/
def linkedin_get_profile {α : Type} (remote : Call → Except String α)
    (db : List LinkedInToken) (now : Int) (params : Params) :
    ServiceResponse α × List Call :=
  let user_id := params.user_id.getD "default_user"
  if pyTruthy params.access_token then
    get_profile_go remote (pyStr params.access_token) params.selectors
  else
    match get_valid_token db user_id now with
    | none =>
      ({ success := false, data := none,
         error := some "No valid stored token found. Please authenticate first." }, [])
    | some stored => get_profile_go remote stored.access_token params.selectors

/-- The `try` block of `LinkedInService._create_post`: fetch the person urn
from `../userinfo`, then POST the UGC post. `getSub` models
`profile_data.get('sub')` on the oracle's response value. -/
def create_post_go {α : Type} (remote : Call → Except String α)
    (getSub : α → Option String) (access_token : String)
    (content : Option String) : ServiceResponse α × List Call :=
  let c1 : Call :=
    { token := access_token, endpoint := "../userinfo", httpMethod := "GET",
      body_author := none, body_text := none }
  match remote c1 with
  | Except.error e =>
    ({ success := false, data := none,
       error := some ("Failed to create post: " ++ e) }, [c1])
  | Except.ok profile_data =>
    let person_urn := "urn:li:person:" ++ pyStr (getSub profile_data)
    let c2 : Call :=
      { token := access_token, endpoint := "ugcPosts", httpMethod := "POST",
        body_author := some person_urn, body_text := content }
    match remote c2 with
    | Except.error e =>
      ({ success := false, data := none,
         error := some ("Failed to create post: " ++ e) }, [c1, c2])
    | Except.ok result =>
      ({ success := true, data := some result, error := none }, [c1, c2])

/-- `LinkedInService._create_post`: credential resolution exactly as in
`_get_profile`, then the `if not content` validation, then the remote calls. -/
def linkedin_create_post {α : Type} (remote : Call → Except String α)
    (getSub : α → Option String) (db : List LinkedInToken) (now : Int)
    (params : Params) : ServiceResponse α × List Call :=
  let user_id := params.user_id.getD "default_user"
  let content := params.content
  if pyTruthy params.access_token then
    if pyTruthy content then
      create_post_go remote getSub (pyStr params.access_token) content
    else
      ({ success := false, data := none,
         error := some "Post content is required" }, [])
  else
    match get_valid_token db user_id now with
    | none =>
      ({ success := false, data := none,
         error := some "No valid stored token found. Please authenticate first." }, [])
    | some stored =>
      if pyTruthy content then
        create_post_go remote getSub stored.access_token content
      else
        ({ success := false, data := none,
           error := some "Post content is required" }, [])

/-! ## `LinkedInAPI` (`src/linkedin_api.py`) -/

/-- `LinkedInAPI.get_auth_url`: the f-string URL.  `client_id` and
`redirect_uri` come from `os.getenv` (optional); the `scope` argument is in
the signature but the body uses the hard-coded `fixed_scope`. -/
def get_auth_url (client_id redirect_uri : Option String)
    (scope : Option String) (state : String) : String :=
  let fixed_scope := "openid profile email w_member_social"
  "https://www.linkedin.com/oauth/v2/authorization"
    ++ "?response_type=code"
    ++ "&client_id=" ++ pyStr client_id
    ++ "&redirect_uri=" ++ pyStr redirect_uri
    ++ "&state=" ++ state
    ++ "&scope=" ++ fixed_scope

/-- An HTTP response as `requests` returns it: the status code, the parsed
JSON body (abstract), and `response.text`. -/
structure HttpResp (α : Type) where
  status_code : Nat
  json : α
  text : String

/-- The success payload of `LinkedInAPI.create_post`. -/
structure PostData where
  post_id : Option String
  post_url : String
  content : String
  character_count : Nat
  compliance_check : String
deriving DecidableEq

/-- A result dict of `LinkedInAPI.create_post`:
`{"success": ..., "error"?: ..., "data"?: ...}`. -/
structure ApiResult where
  success : Bool
  error : Option String
  data : Option PostData
deriving DecidableEq

/-- `LinkedInAPI.create_post`: the three content validations, then
`get_access_token` (a `get_valid_token` lookup), then the profile GET and the
`ugcPosts` POST.  `getSub`/`getId` model `.get("sub")`/`.get("id")` on the
oracle's JSON values; a raised network fault propagates as `Except.error`. -/
def api_create_post {α : Type} (remote : Call → Except String (HttpResp α))
    (getSub : α → Option String) (getId : α → Option String)
    (db : List LinkedInToken) (now : Int) (content : String) (user_id : String) :
    Except String ApiResult × List Call :=
  if content.length > 3000 then
    (Except.ok { success := false,
                 error := some "Post content exceeds 3000 character limit",
                 data := none }, [])
  else if content.trim.length == 0 then
    (Except.ok { success := false,
                 error := some "Post content cannot be empty",
                 data := none }, [])
  else
    let mention_count := content.toList.count '@'
    if mention_count > 10 then
      (Except.ok { success := false,
                   error := some ("Too many mentions (" ++ toString mention_count
                     ++ "). LinkedIn limit is 10 per post."),
                   data := none }, [])
    else
      let token_lookup := (get_valid_token db user_id now).map LinkedInToken.access_token
      if !(pyTruthy token_lookup) then
        (Except.ok { success := false,
                     error := some "No valid access token found. Please authenticate first.",
                     data := none }, [])
      else
        let access_token := pyStr token_lookup
        let c1 : Call :=
          { token := access_token, endpoint := "https://api.linkedin.com/v2/userinfo",
            httpMethod := "GET", body_author := none, body_text := none }
        match remote c1 with
        | Except.error e => (Except.error e, [c1])
        | Except.ok profile_response =>
          if profile_response.status_code != 200 then
            (Except.ok { success := false,
                         error := some "Failed to get user profile for posting",
                         data := none }, [c1])
          else
            let author_urn := getSub profile_response.json
            let c2 : Call :=
              { token := access_token,
                endpoint := "https://api.linkedin.com/v2/ugcPosts",
                httpMethod := "POST",
                body_author := some ("urn:li:person:" ++ pyStr author_urn),
                body_text := some content }
            match remote c2 with
            | Except.error e => (Except.error e, [c1, c2])
            | Except.ok response =>
              if response.status_code == 201 then
                (Except.ok { success := true, error := none,
                             data := some
                               { post_id := getId response.json,
                                 post_url := "https://www.linkedin.com/feed/update/"
                                   ++ pyStr (getId response.json),
                                 content := content,
                                 character_count := content.length,
                                 compliance_check := "passed" } }, [c1, c2])
              else
                (Except.ok { success := false,
                             error := some ("Failed to create post: " ++ response.text),
                             data := none }, [c1, c2])

/-! ## Shared fixtures for witnesses -/

/-- A parameters dict with no keys set. -/
def emptyParams : Params :=
  { access_token := none, user_id := none, content := none, selectors := none }

/-- A request for a name no service is registered under. -/
def reqNonexistent : ServiceRequest :=
  { service_name := "nonexistent", method := "get_profile", parameters := emptyParams }

/-- A registry with nothing registered. -/
def noServices : String → Option (Handler Unit) := fun _ => none

/-- A handler that raises on every request. -/
def failingHandler : Handler Unit := fun _ => Except.error "boom"

/-- A registry holding only the failing handler under the name `linkedin`. -/
def oneServiceMap : String → Option (Handler Unit) := fun n =>
  if n == "linkedin" then some failingHandler else none

/-- A request addressed to the `linkedin` service. -/
def reqLinkedin : ServiceRequest :=
  { service_name := "linkedin", method := "get_profile", parameters := emptyParams }

/-- LinkedIn operations that all raise. -/
def failingOps : LinkedInOps Unit :=
  { get_auth_url := fun _ => Except.error "boom"
    exchange_code_for_token := fun _ => Except.error "boom"
    get_profile := fun _ => Except.error "boom"
    get_user_info := fun _ => Except.error "boom"
    get_connections := fun _ => Except.error "boom"
    get_posts := fun _ => Except.error "boom"
    create_post := fun _ => Except.error "boom"
    start_auth_flow := fun _ => Except.error "boom"
    get_certifications := fun _ => Except.error "boom"
    get_courses := fun _ => Except.error "boom"
    get_experience := fun _ => Except.error "boom"
    search_jobs := fun _ => Except.error "boom" }

/-- A token payload with `expires_in = 0`. -/
def tdExp0 : TokenData :=
  { access_token := some "tokA", refresh_token := none, token_type := none,
    expires_in := some 0, scope := none }

/-- The row `store_token [] "u" tdExp0 none 5` creates. -/
def rowExp0 : LinkedInToken :=
  { user_id := "u", access_token := "tokA", refresh_token := none,
    token_type := "Bearer", expires_at := some 5, scope := none, email := none,
    created_at := 5, updated_at := 5 }

/-- First payload of the double-store scenario (no `expires_in` key). -/
def tdFirst : TokenData :=
  { access_token := some "tokA", refresh_token := none, token_type := none,
    expires_in := none, scope := none }

/-- Second payload of the double-store scenario (`expires_in = 10`). -/
def tdSecond : TokenData :=
  { access_token := some "tokB", refresh_token := none, token_type := none,
    expires_in := some 10, scope := none }

/-- The row after the first store (`now = 1`). -/
def rowFirst : LinkedInToken :=
  { user_id := "u", access_token := "tokA", refresh_token := none,
    token_type := "Bearer", expires_at := none, scope := none, email := none,
    created_at := 1, updated_at := 1 }

/-- The row after the second store (`now = 2`): same `created_at`, refreshed
`updated_at`, `expires_at = 2 + 10`. -/
def rowSecond : LinkedInToken :=
  { user_id := "u", access_token := "tokB", refresh_token := none,
    token_type := "Bearer", expires_at := some 12, scope := none, email := none,
    created_at := 1, updated_at := 2 }

/-- A row whose expiry has passed at `now = 50`. -/
def rowPast : LinkedInToken :=
  { user_id := "past", access_token := "p", refresh_token := none,
    token_type := "Bearer", expires_at := some 1, scope := none, email := none,
    created_at := 0, updated_at := 0 }

/-- A row with no expiry. -/
def rowNone : LinkedInToken :=
  { user_id := "keep", access_token := "k", refresh_token := none,
    token_type := "Bearer", expires_at := none, scope := none, email := none,
    created_at := 0, updated_at := 0 }

/-- A row whose expiry is still in the future at `now = 50`. -/
def rowFuture : LinkedInToken :=
  { user_id := "future", access_token := "f", refresh_token := none,
    token_type := "Bearer", expires_at := some 100, scope := none, email := none,
    created_at := 0, updated_at := 0 }

/-- A store holding a past-expiry, a no-expiry and a future-expiry row. -/
def sweepDb : List LinkedInToken := [rowPast, rowNone, rowFuture]

/-- A token payload whose dict has no `access_token` key. -/
def tdNoAccess : TokenData :=
  { access_token := none, refresh_token := none, token_type := none,
    expires_in := none, scope := none }

/-- A token payload carrying an empty-string `access_token`. -/
def tdEmptyAccess : TokenData :=
  { access_token := some "", refresh_token := none, token_type := none,
    expires_in := none, scope := none }

/-- The row `store_token [] "u1" tdEmptyAccess none 0` creates: its
`access_token` is the empty string. -/
def emptyTokRow : LinkedInToken :=
  { user_id := "u1", access_token := "", refresh_token := none,
    token_type := "Bearer", expires_at := none, scope := none, email := none,
    created_at := 0, updated_at := 0 }

/-- A remote oracle that always succeeds with a unit payload. -/
def remoteUnit : Call → Except String Unit := fun _ => Except.ok ()

/-- A remote oracle for the `LinkedInAPI` layer that always raises. -/
def remoteHUnit : Call → Except String (HttpResp Unit) :=
  fun _ => Except.error "network unreachable"

/-- Parameters carrying an inline access token and no selector list. -/
def paramsInline : Params :=
  { access_token := some "tokI", user_id := none, content := none,
    selectors := none }

/-- The single outbound call `_get_profile` makes for `paramsInline`: the
default projection over the inline credential. -/
def callInline : Call :=
  { token := "tokI",
    endpoint := "me?projection=(id,firstName,lastName,profilePicture(displayImage~:elements*(identifiers*)),vanityName,headline,summary,positions,educations,certifications,courses,skills,emailAddress)",
    httpMethod := "GET", body_author := none, body_text := none }

/-- Parameters with an inline token but no `content` key. -/
def paramsTokNoContent : Params :=
  { access_token := some "tokC", user_id := none, content := none,
    selectors := none }

/-- A 3001-character post body. -/
def bigContent : String := String.mk (List.replicate 3001 'a')

/-! ## Claims -/

/-- C5: a request whose `service_name` is not registered yields
`success = false` with error exactly `Service '<name>' not found`, without
raising (`registry_handle_request` is a total function) and independently of
every registered handler (the lookup alone decides the branch). -/
theorem C5_registry_not_found {α : Type} (services : String → Option (Handler α))
    (request : ServiceRequest) (h : services request.service_name = none) :
    registry_handle_request services request =
      { success := false, data := none,
        error := some ("Service '" ++ request.service_name ++ "' not found") } := by
  unfold registry_handle_request
  rw [h]

/-- Witness for C5 at a concrete registry and request. -/
theorem C5_witness :
    registry_handle_request noServices reqNonexistent =
      { success := false, data := none,
        error := some "Service 'nonexistent' not found" } :=
  C5_registry_not_found noServices reqNonexistent rfl

/-- C1: double containment.  If a registered service's `handle_request`
raises, the registry still returns `success = false` with error
`Error in service '<name>': <message>`; and the LinkedIn service's own
`handle_request` converts every exception raised by an operation into
`success = false` with error `LinkedIn API error: <message>`. -/
theorem C1_double_containment {α : Type} (services : String → Option (Handler α))
    (request : ServiceRequest) (handle : Handler α) (msg : String)
    (hs : services request.service_name = some handle)
    (hraise : handle request = Except.error msg) :
    ((registry_handle_request services request).success = false ∧
      (registry_handle_request services request).error =
        some ("Error in service '" ++ request.service_name ++ "': " ++ msg)) ∧
    ∀ (ops : LinkedInOps α) (req : ServiceRequest) (e : String),
      linkedinDispatch ops req = Except.error e →
      (linkedin_handle_request ops req).success = false ∧
      (linkedin_handle_request ops req).error =
        some ("LinkedIn API error: " ++ e) := by
  constructor
  · simp [registry_handle_request, hs, hraise]
  · intro ops req e he
    simp [linkedin_handle_request, he]

/-- Witness for C1 at a concrete failing service and operation set. -/
theorem C1_witness :
    (registry_handle_request oneServiceMap reqLinkedin).success = false ∧
    (registry_handle_request oneServiceMap reqLinkedin).error =
      some "Error in service 'linkedin': boom" ∧
    (linkedin_handle_request failingOps reqLinkedin).success = false ∧
    (linkedin_handle_request failingOps reqLinkedin).error =
      some "LinkedIn API error: boom" := by
  have h := C1_double_containment oneServiceMap reqLinkedin failingHandler "boom"
    rfl rfl
  exact ⟨h.1.1, h.1.2, (h.2 failingOps reqLinkedin "boom" rfl).1,
    (h.2 failingOps reqLinkedin "boom" rfl).2⟩

/-- C10: `LinkedInAPI.get_auth_url` ignores its `scope` argument — the URL is
the same for any two scopes — and the returned URL carries the fixed scope
query component `openid profile email w_member_social` while embedding the
`state` argument exactly as given. -/
theorem C10_auth_url_fixed_scope (client_id redirect_uri : Option String)
    (scope1 scope2 : Option String) (state : String) :
    get_auth_url client_id redirect_uri scope1 state =
      get_auth_url client_id redirect_uri scope2 state ∧
    get_auth_url client_id redirect_uri scope1 state =
      "https://www.linkedin.com/oauth/v2/authorization?response_type=code&client_id="
        ++ pyStr client_id ++ "&redirect_uri=" ++ pyStr redirect_uri
        ++ "&state=" ++ state
        ++ "&scope=openid profile email w_member_social" := by
  constructor
  · rfl
  · unfold get_auth_url
    simp [String.append_assoc]



/-! ## Facts about the token store -/

/-- The UPDATE statement keeps each row's `user_id`. -/
theorem updRow_user_id (u tok : String) (td : TokenData) (email : Option String)
    (ea : Option Int) (now : Int) (t : LinkedInToken) :
    (updRow u tok td email ea now t).user_id = t.user_id := by
  unfold updRow
  split <;> rfl

/-- The UPDATE on a matching row, written out. -/
theorem updRow_apply (u tok : String) (td : TokenData) (email : Option String)
    (ea : Option Int) (now : Int) (t : LinkedInToken)
    (h : (t.user_id == u) = true) :
    updRow u tok td email ea now t =
      { user_id := t.user_id, access_token := tok,
        refresh_token := td.refresh_token,
        token_type := td.token_type.getD "Bearer", expires_at := ea,
        scope := td.scope, email := email, created_at := t.created_at,
        updated_at := now } := by
  simp [updRow, h]

/-- Looking up `user_id` commutes with the UPDATE over the whole table. -/
theorem get_token_map_updRow (db : List LinkedInToken) (u tok : String)
    (td : TokenData) (email : Option String) (ea : Option Int) (now : Int) :
    get_token (db.map (updRow u tok td email ea now)) u =
      (get_token db u).map (updRow u tok td email ea now) := by
  unfold get_token
  rw [List.find?_map]
  have hp : ((fun t : LinkedInToken => t.user_id == u) ∘ updRow u tok td email ea now)
      = (fun t : LinkedInToken => t.user_id == u) := by
    funext t
    simp [Function.comp, updRow_user_id]
  rw [hp]

/-- The UPDATE leaves every user's row count unchanged. -/
theorem countUser_map_updRow (db : List LinkedInToken) (u v tok : String)
    (td : TokenData) (email : Option String) (ea : Option Int) (now : Int) :
    countUser (db.map (updRow u tok td email ea now)) v = countUser db v := by
  unfold countUser
  rw [List.countP_map]
  have hp : ((fun t : LinkedInToken => t.user_id == v) ∘ updRow u tok td email ea now)
      = (fun t : LinkedInToken => t.user_id == v) := by
    funext t
    simp [Function.comp, updRow_user_id]
  rw [hp]

/-- What one successful `store_token` guarantees: the stored row is the row
`get_token` now returns for this user; its columns are the payload's;
`created_at` is preserved on update and set to `now` on insert; the user's
row count grows only on insert. -/
theorem store_token_ok (db : List LinkedInToken) (u : String) (td : TokenData)
    (email : Option String) (now : Int) (db2 : List LinkedInToken)
    (t : LinkedInToken)
    (h : store_token db u td email now = Except.ok (db2, t)) :
    get_token db2 u = some t ∧
    t.user_id = u ∧
    td.access_token = some t.access_token ∧
    t.expires_at = td.expires_in.map (fun n => now + n) ∧
    t.updated_at = now ∧
    t.email = email ∧
    countUser db2 u = countUser db u + (if (get_token db u).isSome then 0 else 1) ∧
    (∀ t0, get_token db u = some t0 → t.created_at = t0.created_at) ∧
    (get_token db u = none → t.created_at = now) := by
  unfold store_token at h
  cases hat : td.access_token with
  | none => rw [hat] at h; exact absurd h (by simp)
  | some tok =>
    rw [hat] at h
    dsimp only at h
    cases hget : get_token db u with
    | none =>
      rw [hget] at h
      dsimp only at h
      rw [Except.ok.injEq, Prod.mk.injEq] at h
      obtain ⟨hdb, ht⟩ := h
      subst hdb
      subst ht
      refine ⟨?_, rfl, rfl, rfl, rfl, rfl, ?_, ?_, fun _ => rfl⟩
      · unfold get_token at hget ⊢
        rw [List.find?_append, hget]
        simp [List.find?]
      · unfold countUser
        rw [List.countP_append]
        simp [List.countP, List.countP.go]
      · intro t0 h0
        exact absurd h0 (by simp)
    | some orig =>
      rw [hget] at h
      dsimp only at h
      cases hget2 : get_token
          (db.map (updRow u tok td email (td.expires_in.map (fun n => now + n)) now)) u with
      | none => rw [hget2] at h; exact absurd h (by simp)
      | some t2 =>
        rw [hget2] at h
        dsimp only at h
        rw [Except.ok.injEq, Prod.mk.injEq] at h
        obtain ⟨hdb, ht⟩ := h
        subst hdb
        subst ht
        have hkey := get_token_map_updRow db u tok td email
          (td.expires_in.map (fun n => now + n)) now
        rw [hget, Option.map_some'] at hkey
        have hfind : db.find? (fun t => t.user_id == u) = some orig := hget
        have horig : (orig.user_id == u) = true := by
          have h' := List.find?_some hfind
          simpa using h'
        have ht2 : t2 = updRow u tok td email
            (td.expires_in.map (fun n => now + n)) now orig :=
          Option.some.inj (hget2.symm.trans hkey)
        rw [updRow_apply u tok td email
          (td.expires_in.map (fun n => now + n)) now orig horig] at ht2
        subst ht2
        refine ⟨hget2, eq_of_beq horig, rfl, rfl, rfl, rfl, ?_, ?_, ?_⟩
        · rw [countUser_map_updRow]
          simp
        · intro t0 h0
          injection h0 with h0
          subst h0
          rfl
        · intro h0
          exact absurd h0 (by simp)

/-- The validity law, as one reusable iff. -/
theorem get_valid_token_iff (db : List LinkedInToken) (u : String) (now : Int)
    (t : LinkedInToken) :
    get_valid_token db u now = some t ↔
      (get_token db u = some t ∧
        (t.expires_at = none ∨ ∃ e, t.expires_at = some e ∧ now < e)) := by
  unfold get_valid_token
  cases hget : get_token db u with
  | none => simp
  | some tk =>
    dsimp only
    cases he : tk.expires_at with
    | none =>
      dsimp only
      constructor
      · intro h
        injection h with h
        subst h
        exact ⟨rfl, Or.inl he⟩
      · rintro ⟨h1, -⟩
        exact h1
    | some e =>
      dsimp only
      by_cases hle : e ≤ now
      · rw [if_pos hle]
        constructor
        · intro h
          exact absurd h (by simp)
        · rintro ⟨h1, h2⟩
          exfalso
          injection h1 with h1
          subst h1
          rcases h2 with h2 | ⟨e', he', hlt⟩
          · rw [he] at h2
            exact absurd h2 (by simp)
          · rw [he] at he'
            injection he' with he'
            subst he'
            omega
      · rw [if_neg hle]
        constructor
        · intro h
          injection h with h
          subst h
          exact ⟨rfl, Or.inr ⟨e, he, by omega⟩⟩
        · rintro ⟨h1, -⟩
          exact h1

/-- C2: `get_valid_token` returns a record iff `get_token` returns it and the
record's `expires_at` is absent or strictly greater than the time of the
check; and after storing a payload with `expires_in = 0`, `get_token` still
returns the record while `get_valid_token` returns absent. -/
theorem C2_validity_law (db : List LinkedInToken) (u : String) (now : Int) :
    (∀ t, get_valid_token db u now = some t ↔
      (get_token db u = some t ∧
        (t.expires_at = none ∨ ∃ e, t.expires_at = some e ∧ now < e))) ∧
    (∀ td email db2 t, td.expires_in = some 0 →
      store_token db u td email now = Except.ok (db2, t) →
      get_token db2 u = some t ∧ get_valid_token db2 u now = none) := by
  constructor
  · exact get_valid_token_iff db u now
  · intro td email db2 t hexp hstore
    obtain ⟨hg, -, -, hea, -, -, -, -, -⟩ := store_token_ok _ _ _ _ _ _ _ hstore
    rw [hexp, Option.map_some'] at hea
    refine ⟨hg, ?_⟩
    cases hv : get_valid_token db2 u now with
    | none => rfl
    | some tv =>
      exfalso
      obtain ⟨h1, h2⟩ := (get_valid_token_iff db2 u now tv).mp hv
      rw [hg] at h1
      injection h1 with h1
      subst h1
      rcases h2 with h2 | ⟨e, he, hlt⟩
      · rw [hea] at h2
        exact absurd h2 (by simp)
      · rw [hea] at he
        injection he with he
        omega

/-- Witness for C2: a token stored at time 5 with `expires_in = 0` is
returned by `get_token` but not by `get_valid_token` at time 5. -/
theorem C2_witness :
    get_token [rowExp0] "u" = some rowExp0 ∧
    get_valid_token [rowExp0] "u" 5 = none :=
  (C2_validity_law [] "u" 5).2 tdExp0 none [rowExp0] rowExp0 rfl rfl

/-- C3: `store_token` is an upsert keeping at most one row per user: a first
store into a store with no row for `u` inserts one row; a second store for
the same `u` keeps the count at one, preserves `created_at` from the first
call, refreshes `updated_at` to the second call's time, and sets
`expires_at` to `now + N` exactly when the second payload carries
`expires_in = N` (absent otherwise). -/
theorem C3_upsert (db : List LinkedInToken) (u : String)
    (td1 td2 : TokenData) (email1 email2 : Option String) (now1 now2 : Int)
    (db1 db2 : List LinkedInToken) (t1 t2 : LinkedInToken)
    (h0 : get_token db u = none)
    (h1 : store_token db u td1 email1 now1 = Except.ok (db1, t1))
    (h2 : store_token db1 u td2 email2 now2 = Except.ok (db2, t2)) :
    countUser db1 u = countUser db u + 1 ∧
    countUser db2 u = countUser db1 u ∧
    (countUser db u = 0 → countUser db2 u = 1) ∧
    get_token db2 u = some t2 ∧
    t2.created_at = t1.created_at ∧
    t1.created_at = now1 ∧
    t2.updated_at = now2 ∧
    t2.expires_at = td2.expires_in.map (fun n => now2 + n) := by
  obtain ⟨g1, -, -, -, -, -, c1, -, cr1⟩ := store_token_ok _ _ _ _ _ _ _ h1
  obtain ⟨g2, -, -, e2, up2, -, c2, cr2, -⟩ := store_token_ok _ _ _ _ _ _ _ h2
  rw [h0] at c1
  simp at c1
  rw [g1] at c2
  simp at c2
  refine ⟨c1, c2, ?_, g2, cr2 t1 g1, cr1 h0, up2, e2⟩
  intro hz
  omega

/-- Witness for C3: two concrete stores for user `u` at times 1 and 2. -/
theorem C3_witness :
    countUser [rowSecond] "u" = 1 ∧
    get_token [rowSecond] "u" = some rowSecond ∧
    rowSecond.created_at = rowFirst.created_at ∧
    rowFirst.created_at = 1 ∧
    rowSecond.updated_at = 2 ∧
    rowSecond.expires_at = tdSecond.expires_in.map (fun n => 2 + n) := by
  have h := C3_upsert [] "u" tdFirst tdSecond none none 1 2
    [rowFirst] [rowSecond] rowFirst rowSecond rfl rfl rfl
  exact ⟨h.2.2.1 rfl, h.2.2.2.1, h.2.2.2.2.1, h.2.2.2.2.2.1,
    h.2.2.2.2.2.2.1, h.2.2.2.2.2.2.2⟩

/-- Splitting a list by a predicate splits its length. -/
theorem length_filter_split {α : Type} (p : α → Bool) (l : List α) :
    (l.filter p).length + (l.filter (fun a => !(p a))).length = l.length := by
  induction l with
  | nil => rfl
  | cons a l ih => cases h : p a <;> simp [List.filter_cons, h] <;> omega

/-- C6: the expiry sweep keeps exactly the rows whose `expires_at` is absent
or still in the future — rows with no expiry are never removed — and the
returned count plus the rows kept equals the original row count, so the
count is exactly the number of removed rows. -/
theorem C6_sweep_correct (db : List LinkedInToken) (now : Int) :
    (∀ t ∈ db, (t ∈ (cleanup_expired_tokens db now).1 ↔
        ∀ e, t.expires_at = some e → now < e)) ∧
    (∀ t ∈ db, t.expires_at = none → t ∈ (cleanup_expired_tokens db now).1) ∧
    (cleanup_expired_tokens db now).2 +
      (cleanup_expired_tokens db now).1.length = db.length := by
  refine ⟨?_, ?_, ?_⟩
  · intro t ht
    unfold cleanup_expired_tokens
    simp only [List.mem_filter]
    constructor
    · rintro ⟨-, hp⟩ e he
      unfold expiredBy at hp
      rw [he] at hp
      simp at hp
      omega
    · intro hcond
      refine ⟨ht, ?_⟩
      unfold expiredBy
      cases he : t.expires_at with
      | none => simp
      | some e =>
        have hlt := hcond e he
        simp
        omega
  · intro t ht he
    unfold cleanup_expired_tokens
    simp only [List.mem_filter]
    refine ⟨ht, ?_⟩
    unfold expiredBy
    rw [he]
    rfl
  · unfold cleanup_expired_tokens
    simp only
    rw [List.countP_eq_length_filter]
    exact length_filter_split (expiredBy now) db

/-- Witness for C6 on a store with one past-expiry, one no-expiry and one
future-expiry row at time 50. -/
theorem C6_witness :
    rowNone ∈ (cleanup_expired_tokens sweepDb 50).1 ∧
    rowPast ∉ (cleanup_expired_tokens sweepDb 50).1 ∧
    (cleanup_expired_tokens sweepDb 50).2 +
      (cleanup_expired_tokens sweepDb 50).1.length = sweepDb.length := by
  refine ⟨?_, ?_, (C6_sweep_correct sweepDb 50).2.2⟩
  · exact (C6_sweep_correct sweepDb 50).2.1 rowNone (by simp [sweepDb]) rfl
  · intro hmem
    have h := ((C6_sweep_correct sweepDb 50).1 rowPast (by simp [sweepDb])).mp hmem 1 rfl
    omega

/-- C7: `delete_token` returns true iff a row for the user existed (and was
removed); on a store with no such row it returns false, leaves the store
unchanged (so every subsequent call also returns false), and deleting right
after deleting always returns false. -/
theorem C7_delete_idempotent (db : List LinkedInToken) (u : String) :
    ((delete_token db u).2 = true ↔ (get_token db u).isSome = true) ∧
    (delete_token (delete_token db u).1 u).2 = false ∧
    (get_token db u = none → (delete_token db u).1 = db) := by
  refine ⟨?_, ?_, ?_⟩
  · unfold delete_token get_token
    simp [List.countP_pos_iff, List.find?_isSome]
  · unfold delete_token
    simp [List.countP_eq_zero, List.mem_filter]
  · intro h
    unfold delete_token
    simp only
    rw [List.filter_eq_self]
    intro a ha
    unfold get_token at h
    have := List.find?_eq_none.mp h a ha
    simpa using this

/-- Witness for C7 at a one-row store and at the empty store. -/
theorem C7_witness :
    ((delete_token [rowFirst] "u").2 = true ↔
      (get_token [rowFirst] "u").isSome = true) ∧
    (delete_token (delete_token [rowFirst] "u").1 "u").2 = false ∧
    (delete_token [] "ghost").1 = ([] : List LinkedInToken) :=
  ⟨(C7_delete_idempotent [rowFirst] "u").1,
   (C7_delete_idempotent [rowFirst] "u").2.1,
   (C7_delete_idempotent [] "ghost").2.2 rfl⟩

/-- C9 counterexample: `store_token` performs no emptiness validation — a
payload whose `access_token` is the empty string is stored successfully and
the stored row's `access_token` is empty, contradicting "never empty once
stored". -/
theorem C9_counterexample :
    store_token [] "u1" tdEmptyAccess none 0 =
      Except.ok ([emptyTokRow], emptyTokRow) ∧
    emptyTokRow.access_token = "" := ⟨rfl, rfl⟩

/-- C9 amended: `access_token` is required — `store_token` fails when the
payload has no `access_token` key — and every successful store leaves a row
whose `access_token` equals the payload's value verbatim; it is present but
may be the empty string, since emptiness is not validated. -/
theorem C9_access_token_required (db : List LinkedInToken) (u : String)
    (td : TokenData) (email : Option String) (now : Int) :
    (td.access_token = none →
      store_token db u td email now = Except.error "KeyError: access_token") ∧
    (∀ db2 t, store_token db u td email now = Except.ok (db2, t) →
      td.access_token = some t.access_token) := by
  constructor
  · intro h
    unfold store_token
    rw [h]
  · intro db2 t h
    exact (store_token_ok _ _ _ _ _ _ _ h).2.2.1

/-- Witness for the amended C9: a missing key fails, an empty-string value
is stored verbatim. -/
theorem C9_witness :
    store_token [] "u1" tdNoAccess none 0 =
      Except.error "KeyError: access_token" ∧
    tdEmptyAccess.access_token = some emptyTokRow.access_token :=
  ⟨(C9_access_token_required [] "u1" tdNoAccess none 0).1 rfl,
   (C9_access_token_required [] "u1" tdEmptyAccess none 0).2
     [emptyTokRow] emptyTokRow rfl⟩

/-- Every call `_get_profile`'s body issues carries the resolved credential. -/
theorem get_profile_go_calls {α : Type} (remote : Call → Except String α)
    (tok : String) (selectors : Option (List String)) :
    ∀ c ∈ (get_profile_go remote tok selectors).2, c.token = tok := by
  intro c hc
  unfold get_profile_go at hc
  dsimp only at hc
  split at hc <;> (simp at hc; subst hc; rfl)

/-- C4: credential resolution of an authenticated operation
(`_get_profile`): a truthy inline `access_token` is the credential of every
outbound call, taking precedence over whatever the store holds; otherwise
the stored valid token for `user_id` (default `"default_user"`) is used;
and when neither exists the operation returns the fixed failure response
having made no remote call. -/
theorem C4_credential_resolution {α : Type} (remote : Call → Except String α)
    (db : List LinkedInToken) (now : Int) (params : Params) :
    (pyTruthy params.access_token = true →
      ∀ c ∈ (linkedin_get_profile remote db now params).2,
        c.token = pyStr params.access_token) ∧
    (pyTruthy params.access_token = false →
      ∀ stored,
        get_valid_token db (params.user_id.getD "default_user") now = some stored →
        ∀ c ∈ (linkedin_get_profile remote db now params).2,
          c.token = stored.access_token) ∧
    (pyTruthy params.access_token = false →
      get_valid_token db (params.user_id.getD "default_user") now = none →
      linkedin_get_profile remote db now params =
        ({ success := false, data := none,
           error := some "No valid stored token found. Please authenticate first." },
         [])) := by
  refine ⟨?_, ?_, ?_⟩
  · intro htr c hc
    simp only [linkedin_get_profile, htr, if_true] at hc
    exact get_profile_go_calls remote _ _ c hc
  · intro hfa stored hst c hc
    simp only [linkedin_get_profile, hfa, Bool.false_eq_true, if_false, hst] at hc
    exact get_profile_go_calls remote _ _ c hc
  · intro hfa hnone
    simp only [linkedin_get_profile, hfa, Bool.false_eq_true, if_false, hnone]

/-- Witness for C4: the inline token is the observed credential of the one
outbound call; with no inline token and an empty store the fixed failure is
returned with no call. -/
theorem C4_witness :
    callInline.token = pyStr paramsInline.access_token ∧
    linkedin_get_profile remoteUnit [] 0 emptyParams =
      ({ success := false, data := none,
         error := some "No valid stored token found. Please authenticate first." },
       []) := by
  constructor
  · have heval : (linkedin_get_profile remoteUnit [] 0 paramsInline).2 = [callInline] := rfl
    exact (C4_credential_resolution remoteUnit [] 0 paramsInline).1 rfl callInline
      (by rw [heval]; exact List.mem_singleton.mpr rfl)
  · exact (C4_credential_resolution remoteUnit [] 0 emptyParams).2.2 rfl rfl

/-- C8: post creation validates before any remote call.  The service's
`_create_post` makes no outbound call and fails whenever `content` is absent
or empty — with the message `Post content is required` once a credential is
available — and `LinkedInAPI.create_post` rejects content over 3000
characters, whitespace-only content, and more than 10 `@` mentions, each
with its explicit message and an empty call log. -/
theorem C8_post_validation {α : Type} (remote : Call → Except String α)
    (getSub : α → Option String)
    (remoteH : Call → Except String (HttpResp α)) (getId : α → Option String)
    (db : List LinkedInToken) (now : Int) (params : Params) (content : String)
    (user_id : String) :
    (pyTruthy params.content = false →
      (linkedin_create_post remote getSub db now params).2 = [] ∧
      (linkedin_create_post remote getSub db now params).1.success = false) ∧
    (pyTruthy params.access_token = true → pyTruthy params.content = false →
      linkedin_create_post remote getSub db now params =
        ({ success := false, data := none,
           error := some "Post content is required" }, [])) ∧
    (content.length > 3000 →
      api_create_post remoteH getSub getId db now content user_id =
        (Except.ok { success := false,
                     error := some "Post content exceeds 3000 character limit",
                     data := none }, [])) ∧
    (content.length ≤ 3000 → content.trim.length = 0 →
      api_create_post remoteH getSub getId db now content user_id =
        (Except.ok { success := false,
                     error := some "Post content cannot be empty",
                     data := none }, [])) ∧
    (content.length ≤ 3000 → content.trim.length ≠ 0 →
      content.toList.count '@' > 10 →
      api_create_post remoteH getSub getId db now content user_id =
        (Except.ok { success := false,
                     error := some ("Too many mentions ("
                       ++ toString (content.toList.count '@')
                       ++ "). LinkedIn limit is 10 per post."),
                     data := none }, [])) := by
  refine ⟨?_, ?_, ?_, ?_, ?_⟩
  · intro hc
    cases hat : pyTruthy params.access_token with
    | true => simp [linkedin_create_post, hat, hc]
    | false =>
      cases hval : get_valid_token db (params.user_id.getD "default_user") now with
      | none => simp [linkedin_create_post, hat, hval]
      | some stored => simp [linkedin_create_post, hat, hval, hc]
  · intro hat hc
    simp [linkedin_create_post, hat, hc]
  · intro h
    simp [api_create_post, h]
  · intro h1 h2
    have hn : ¬ (content.length > 3000) := by omega
    simp [api_create_post, hn, h2]
  · intro h1 h2 h3
    have hn : ¬ (content.length > 3000) := by omega
    have hb : (content.trim.length == 0) = false := by simpa using h2
    simp [api_create_post, hn, hb, h3]
    intro h
    rw [show content.toList = content.data from rfl] at h3
    exact absurd h3 (by omega)

/-- Witness for C8: with an inline credential and no content the service
fails with no call; a 3001-character body is rejected by the API layer with
no call. -/
theorem C8_witness :
    linkedin_create_post remoteUnit (fun _ => none) [] 0 paramsTokNoContent =
      ({ success := false, data := none,
         error := some "Post content is required" }, []) ∧
    api_create_post remoteHUnit (fun _ => none) (fun _ => none) [] 0 bigContent
        "default_user" =
      (Except.ok { success := false,
                   error := some "Post content exceeds 3000 character limit",
                   data := none }, []) := by
  constructor
  · exact (C8_post_validation remoteUnit (fun _ => none) remoteHUnit (fun _ => none)
      [] 0 paramsTokNoContent bigContent "default_user").2.1 rfl rfl
  · refine (C8_post_validation remoteUnit (fun _ => none) remoteHUnit (fun _ => none)
      [] 0 paramsTokNoContent bigContent "default_user").2.2.1 ?_
    have h : bigContent.length = 3001 := by
      show (List.replicate 3001 'a').length = 3001
      rw [List.length_replicate]
    omega
